import Mathlib

/-!
Shallow embedding of the gotrs-ce Python SDK's authenticated transport layer
(`src/sdk/python/gotrs_sdk/auth.py`, `http_client.py`, `exceptions.py`)
and proofs about it.

Times are modelled as `Int` Unix timestamps (seconds).  `datetime.now().timestamp()`
becomes an explicit `now : Int` argument.
-/

namespace GotrsSdk

/-! ## Authenticator state (`auth.py`)

`JWTAuth` and `OAuth2Auth` both hold an access token, an optional refresh
token, an optional expiry timestamp and an optional refresh procedure; the
refresh procedure is modelled as a pure function from the refresh token to a
`RefreshResult` (the `Dict[str, Any]` the Python callback returns, restricted
to the keys `refresh` reads).  `expires_at` in the result is modelled as the
native-timestamp branch of the source (`result["expires_at"]` not a string);
the ISO-8601 string branch normalizes to the same timestamp. -/

/-- The mapping returned by a caller-supplied refresh procedure:
required `access_token`, optional `refresh_token`, optional `expires_at`.
`none` models the key being absent from the returned dict. -/
structure RefreshResult where
  accessToken : String
  refreshToken : Option String
  expiresAt : Option Int
  deriving Repr, DecidableEq

/-- Mutable state of a `JWTAuth` instance: `self.token`, `self.refresh_token`,
`self.expires_at` (from `auth.py` lines 72-74). -/
structure JWTState where
  token : String
  refreshToken : Option String
  expiresAt : Option Int
  deriving Repr, DecidableEq

/-- Mutable state of an `OAuth2Auth` instance: `self.access_token`,
`self.refresh_token`, `self.token_type`, `self.expires_at`
(from `auth.py` lines 135-138). -/
structure OAuth2State where
  accessToken : String
  refreshToken : Option String
  tokenType : String
  expiresAt : Option Int
  deriving Repr, DecidableEq

/-- Shared body of `JWTAuth.is_expired` / `OAuth2Auth.is_expired`
(`auth.py` lines 82-89 and 146-153):
`if not self.expires_at: return False`;
`buffer_time = datetime.now(timezone.utc).timestamp() + 60`;
`return self.expires_at.timestamp() <= buffer_time`. -/
def isExpiredAt (expiresAt : Option Int) (now : Int) : Bool :=
  match expiresAt with
  | none => false
  | some e => e ≤ now + 60

/-- `JWTAuth.is_expired` (`auth.py` lines 82-89). -/
def JWTState.isExpired (s : JWTState) (now : Int) : Bool :=
  isExpiredAt s.expiresAt now

/-- `OAuth2Auth.is_expired` (`auth.py` lines 146-153). -/
def OAuth2State.isExpired (s : OAuth2State) (now : Int) : Bool :=
  isExpiredAt s.expiresAt now

/-- `APIKeyAuth.is_expired` (`auth.py` lines 47-49): `return False`. -/
def apiKeyIsExpired : Bool := false

/-- `NoAuth.is_expired` (`auth.py` lines 193-195): `return False`. -/
def noAuthIsExpired : Bool := false

/-- `JWTAuth.refresh` (`auth.py` lines 91-115).  The `async with
self._refresh_lock` critical section is serialized by the lock, so one call is
modelled as a pure state transformer executed at a fixed time `now`.  Returns
the new state plus the number of invocations of the refresh procedure (0 or 1);
`.error` models the `AuthenticationError` raised when no refresh function or
refresh token is configured.  The refresh procedure is assumed to return
normally (its exception path re-raises as `AuthenticationError` and touches no
state). -/
def jwtRefresh (refreshFunction : Option (String → RefreshResult)) (now : Int)
    (s : JWTState) : Except String (JWTState × Nat) :=
  match refreshFunction, s.refreshToken with
  | none, _ => .error "No refresh function or refresh token available"
  | some _, none => .error "No refresh function or refresh token available"
  | some f, some rt =>
    -- `not self.refresh_token` is a truthiness check: the empty string is
    -- falsy too and raises like a missing token
    if rt = "" then .error "No refresh function or refresh token available"
    -- critical section: check again in case another coroutine already refreshed
    else if ¬ s.isExpired now then
      .ok (s, 0)
    else
      let result := f rt
      .ok ({ token := result.accessToken,
             refreshToken := match result.refreshToken with
               | some nrt => some nrt
               | none => s.refreshToken,
             expiresAt := match result.expiresAt with
               | some e => some e
               | none => s.expiresAt }, 1)

/-- `OAuth2Auth.refresh` (`auth.py` lines 155-179); identical update logic to
`JWTAuth.refresh` on the shared fields, `token_type` untouched. -/
def oauth2Refresh (refreshFunction : Option (String → RefreshResult)) (now : Int)
    (s : OAuth2State) : Except String (OAuth2State × Nat) :=
  match refreshFunction, s.refreshToken with
  | none, _ => .error "No refresh function or refresh token available"
  | some _, none => .error "No refresh function or refresh token available"
  | some f, some rt =>
    -- `not self.refresh_token` is a truthiness check: the empty string is
    -- falsy too and raises like a missing token
    if rt = "" then .error "No refresh function or refresh token available"
    else if ¬ s.isExpired now then
      .ok (s, 0)
    else
      let result := f rt
      .ok ({ accessToken := result.accessToken,
             refreshToken := match result.refreshToken with
               | some nrt => some nrt
               | none => s.refreshToken,
             tokenType := s.tokenType,
             expiresAt := match result.expiresAt with
               | some e => some e
               | none => s.expiresAt }, 1)

/-- `n` concurrent callers of `JWTAuth.refresh` against one shared instance.
The per-instance `asyncio.Lock` fully serializes the critical sections (the
pre-lock configuration check reads no mutable state), so a concurrent run is a
sequence of `jwtRefresh` steps threading the shared state; the fold returns
the final state and the total number of refresh-procedure invocations.  A
caller that raises leaves the state and count untouched. -/
def jwtConcurrentRefresh (refreshFunction : Option (String → RefreshResult))
    (now : Int) : Nat → JWTState → JWTState × Nat
  | 0, s => (s, 0)
  | n + 1, s =>
    match jwtRefresh refreshFunction now s with
    | .error _ => jwtConcurrentRefresh refreshFunction now n s
    | .ok (s', c) =>
      let (s'', c') := jwtConcurrentRefresh refreshFunction now n s'
      (s'', c + c')

/-- `n` concurrent callers of `OAuth2Auth.refresh`, serialized by the lock as
in `jwtConcurrentRefresh`. -/
def oauth2ConcurrentRefresh (refreshFunction : Option (String → RefreshResult))
    (now : Int) : Nat → OAuth2State → OAuth2State × Nat
  | 0, s => (s, 0)
  | n + 1, s =>
    match oauth2Refresh refreshFunction now s with
    | .error _ => oauth2ConcurrentRefresh refreshFunction now n s
    | .ok (s', c) =>
      let (s'', c') := oauth2ConcurrentRefresh refreshFunction now n s'
      (s'', c + c')

/-! ## JSON values and the error taxonomy (`exceptions.py`) -/

/-- Parsed JSON bodies (`response.json()`).  Numbers are modelled as `Int`;
no claim involves fractional JSON numbers. -/
inductive JValue where
  | null : JValue
  | bool (b : Bool) : JValue
  | num (n : Int) : JValue
  | str (s : String) : JValue
  | arr (xs : List JValue) : JValue
  | obj (fields : List (String × JValue)) : JValue
  deriving Repr

/-- Python truthiness (`if not data["success"]` negates this). -/
def jFalsy : JValue → Bool
  | .null => true
  | .bool b => !b
  | .num n => n = 0
  | .str s => s = ""
  | .arr xs => xs.isEmpty
  | .obj fields => fields.isEmpty

/-- `dict.get(key)` on a parsed JSON object: `none` models the key being
absent. -/
def dictGet (fields : List (String × JValue)) (key : String) : Option JValue :=
  (fields.find? (fun p => p.1 = key)).map Prod.snd

/-- Tags for the closed exception hierarchy of `exceptions.py`. -/
inductive ErrKind where
  | generic | validation | network | timeoutErr | authentication
  | notFound | unauthorized | forbidden | rateLimit | server
  | configuration | webSocket
  deriving Repr, DecidableEq

/-- One raised taxonomy error: the attributes `GotrsError.__init__` stores
(`message`, `status_code`, `code`, `details`, `response_data`), the concrete
class as a tag, and `RateLimitError`'s extra `retry_after`.  `message`,
`code` and `details` are arbitrary Python values in the source (they come
from `dict.get` on the body), hence `JValue`. -/
structure ErrInfo where
  kind : ErrKind
  message : JValue
  statusCode : Option Nat
  code : Option JValue
  details : Option JValue
  retryAfter : Option Int
  responseData : Option JValue
  deriving Repr

/-- `GotrsError(message, status_code=..., code=..., details=..., response_data=...)`
(`exceptions.py` lines 6-22); an argument's `none` models the kwarg not being
passed (its Python default is `None`). -/
def GotrsError.ofArgs (message : JValue) (statusCode : Option Nat)
    (code : Option JValue) (details : Option JValue)
    (responseData : Option JValue) : ErrInfo :=
  ⟨.generic, message, statusCode, code, details, none, responseData⟩

/-- `NotFoundError(message, ...)` (`exceptions.py` lines 89-93): fixed
`status_code=404, code="NOT_FOUND"`. -/
def NotFoundError.ofArgs (message : JValue) (details : Option JValue)
    (responseData : Option JValue) : ErrInfo :=
  ⟨.notFound, message, some 404, some (.str "NOT_FOUND"), details, none, responseData⟩

/-- `UnauthorizedError(message, ...)` (`exceptions.py` lines 96-100): fixed
`status_code=401, code="UNAUTHORIZED"`; is-a `AuthenticationError`. -/
def UnauthorizedError.ofArgs (message : JValue) (details : Option JValue)
    (responseData : Option JValue) : ErrInfo :=
  ⟨.unauthorized, message, some 401, some (.str "UNAUTHORIZED"), details, none, responseData⟩

/-- `ForbiddenError(message, ...)` (`exceptions.py` lines 103-107): fixed
`status_code=403, code="FORBIDDEN"`; is-a `AuthenticationError`. -/
def ForbiddenError.ofArgs (message : JValue) (details : Option JValue)
    (responseData : Option JValue) : ErrInfo :=
  ⟨.forbidden, message, some 403, some (.str "FORBIDDEN"), details, none, responseData⟩

/-- `RateLimitError(message, retry_after=..., ...)` (`exceptions.py`
lines 110-120): fixed `status_code=429, code="RATE_LIMITED"`, stores
`retry_after`. -/
def RateLimitError.ofArgs (message : JValue) (retryAfter : Option Int)
    (details : Option JValue) (responseData : Option JValue) : ErrInfo :=
  ⟨.rateLimit, message, some 429, some (.str "RATE_LIMITED"), details, retryAfter, responseData⟩

/-- `ServerError(message, ...)` (`exceptions.py` lines 123-129):
`kwargs.setdefault("status_code", 500)` and `kwargs.setdefault("code",
"SERVER_ERROR")` — the defaults apply only when the caller did NOT pass the
kwarg (`none`); a caller-passed value, even an empty string, is kept. -/
def ServerError.ofArgs (message : JValue) (statusCodeArg : Option Nat)
    (codeArg : Option JValue) (details : Option JValue)
    (responseData : Option JValue) : ErrInfo :=
  ⟨.server, message, some (statusCodeArg.getD 500),
    some (codeArg.getD (.str "SERVER_ERROR")), details, none, responseData⟩

/-- `TimeoutError(message)` (`exceptions.py` lines 71-81) as raised by the
retry loop: no status, no code. -/
def TimeoutError.ofMessage (message : String) : ErrInfo :=
  ⟨.timeoutErr, .str message, none, none, none, none, none⟩

/-- `NetworkError(message)` (`exceptions.py` lines 56-68) as raised by the
retry loop: no status, no code. -/
def NetworkError.ofMessage (message : String) : ErrInfo :=
  ⟨.network, .str message, none, none, none, none, none⟩

/-! ## HTTP responses and error classification (`http_client.py`) -/

/-- The slice of an `httpx.Response` the client reads: status code, the parsed
JSON body (`none` when `response.json()` raises; restricted to JSON objects,
the only body shape `_handle_error` can read without a Python `AttributeError`),
`response.text`, and the `Retry-After` header when present. -/
structure Response where
  statusCode : Nat
  body : Option (List (String × JValue))
  text : String
  retryAfterHeader : Option String
  deriving Repr

/-- `httpx.Response.is_success`: status in [200, 300). -/
def isSuccessStatus (status : Nat) : Bool :=
  200 ≤ status ∧ status < 300

/-- ASCII whitespace stripped by Python's `int(str)`. -/
def isPySpace (c : Char) : Bool :=
  c = ' ' || c = '\t' || c = '\n' || c = '\r' || c = '\x0b' || c = '\x0c'

/-- Model of the Python builtin `int(s)` on strings, returning `none` where
Python raises `ValueError`: surrounding whitespace stripped, optional sign,
one or more decimal digits.  (Python's digit-grouping underscores are not
modelled; no claim exercises them.) -/
def pythonIntOfString (s : String) : Option Int :=
  let cs := s.data.dropWhile isPySpace
  let cs := (cs.reverse.dropWhile isPySpace).reverse
  let (sign, digits) :=
    match cs with
    | '-' :: rest => ((-1 : Int), rest)
    | '+' :: rest => ((1 : Int), rest)
    | _ => ((1 : Int), cs)
  if !digits.isEmpty && digits.all (fun c => c.isDigit) then
    some (sign * (digits.foldl (fun acc c => acc * 10 + (c.toNat - 48)) (0 : Nat) : Nat))
  else
    none

/-- `HTTPClient._handle_error` (`http_client.py` lines 103-139).  Every branch
raises; the function returns the raised error.  `error_data` is the parsed
body, or a synthesized dict on parse failure (`response.text or "Unknown
error"`). -/
def handleError (r : Response) : ErrInfo :=
  let errorData : List (String × JValue) :=
    match r.body with
    | some fields => fields
    | none => [("error", .str (if r.text = "" then "Unknown error" else r.text))]
  let message := (dictGet errorData "message").getD
    ((dictGet errorData "error").getD (.str "Unknown error"))
  let code := (dictGet errorData "code").getD (.str "")
  let details := (dictGet errorData "details").getD (.str "")
  let responseData := some (JValue.obj errorData)
  if r.statusCode = 404 then
    NotFoundError.ofArgs message (some details) responseData
  else if r.statusCode = 401 then
    UnauthorizedError.ofArgs message (some details) responseData
  else if r.statusCode = 403 then
    ForbiddenError.ofArgs message (some details) responseData
  else if r.statusCode = 429 then
    let retryAfter :=
      match r.retryAfterHeader with
      | none => none
      | some h => pythonIntOfString h
    RateLimitError.ofArgs message retryAfter (some details) responseData
  else if 500 ≤ r.statusCode ∧ r.statusCode < 600 then
    ServerError.ofArgs message (some r.statusCode) (some code) (some details) responseData
  else
    GotrsError.ofArgs message (some r.statusCode) (some code) (some details) responseData

/-! ## Retry loop (`http_client.py` lines 141-196) -/

/-- What the underlying transport (`self._client.request`) does on one
attempt: return a response, raise `httpx.TimeoutException`, or raise
`httpx.NetworkError`. -/
inductive TransportOutcome where
  | response (r : Response)
  | timeoutExc
  | networkExc (msg : String)

/-- Outcome of `_make_request_with_retries`: the returned response, or the
raised taxonomy error. -/
inductive RequestResult where
  | success (r : Response)
  | failure (e : ErrInfo)
  deriving Repr

/-- Observable trace of one `_make_request_with_retries` call: how many
transport attempts were made, the backoff delays slept (in order, in the
source's time units = seconds), and the outcome. -/
structure RunTrace where
  attempts : Nat
  delays : List Nat
  result : RequestResult
  deriving Repr

/-- Client configuration read by the retry loop: `self.retries` (max retries)
and `self.timeout` (only used in the `TimeoutError` message text). -/
structure ClientConfig where
  retries : Nat
  timeout : Int

/-- What `_make_request_with_retries` raises when the `for` loop ends without
returning (`http_client.py` lines 192-196): `last_exception` when one was
captured, else the generic exhaustion error. -/
def exhaustError : Option ErrInfo → ErrInfo
  | some e => e
  | none => GotrsError.ofArgs (.str "Request failed after all retry attempts")
      none none none none

/-- The `for attempt in range(self.retries + 1)` loop of
`_make_request_with_retries` (`http_client.py` lines 149-196), recursing on
the list of pending attempt indices; `last_exception` and the trace
accumulators are explicit.  `return`/`raise` stop the loop; `continue` and an
except-branch fall-through move to the next pending index. -/
def runLoop (cfg : ClientConfig) (transport : Nat → TransportOutcome) :
    (pending : List Nat) → (lastExc : Option ErrInfo) → (attemptsDone : Nat) →
    (delays : List Nat) → RunTrace
  | [], lastExc, attemptsDone, delays =>
    ⟨attemptsDone, delays, .failure (exhaustError lastExc)⟩
  | attempt :: rest, lastExc, attemptsDone, delays =>
    match transport attempt with
    | .response r =>
      if isSuccessStatus r.statusCode then
        ⟨attemptsDone + 1, delays, .success r⟩
      else if 400 ≤ r.statusCode ∧ r.statusCode < 500 ∧ r.statusCode ≠ 429 then
        -- don't retry client errors (4xx) except for rate limiting
        ⟨attemptsDone + 1, delays, .failure (handleError r)⟩
      else if attempt < cfg.retries then
        -- server errors and rate limiting: sleep 2 ** attempt, retry
        runLoop cfg transport rest lastExc (attemptsDone + 1) (delays ++ [2 ^ attempt])
      else
        -- last attempt: raise the error
        ⟨attemptsDone + 1, delays, .failure (handleError r)⟩
    | .timeoutExc =>
      let e := TimeoutError.ofMessage
        ("Request timed out after " ++ toString cfg.timeout ++ "s")
      if attempt < cfg.retries then
        runLoop cfg transport rest (some e) (attemptsDone + 1) (delays ++ [2 ^ attempt])
      else
        -- loop body ends without continue; the for loop moves on
        runLoop cfg transport rest (some e) (attemptsDone + 1) delays
    | .networkExc msg =>
      let e := NetworkError.ofMessage ("Network error: " ++ msg)
      if attempt < cfg.retries then
        runLoop cfg transport rest (some e) (attemptsDone + 1) (delays ++ [2 ^ attempt])
      else
        runLoop cfg transport rest (some e) (attemptsDone + 1) delays

/-- `HTTPClient._make_request_with_retries` (`http_client.py` lines 141-196):
run the attempt loop over `range(self.retries + 1)` with no captured
exception. -/
def makeRequestWithRetries (cfg : ClientConfig)
    (transport : Nat → TransportOutcome) : RunTrace :=
  runLoop cfg transport (List.range (cfg.retries + 1)) none 0 []

/-! ## Response unwrapping (`http_client.py` lines 198-222) -/

/-- Outcome of `_extract_data`: a returned value, the raw text returned when
the body fails to parse, or a raised `GotrsError`. -/
inductive ExtractResult where
  | value (v : JValue)
  | rawText (s : String)
  | raised (e : ErrInfo)
  deriving Repr

/-- `HTTPClient._extract_data` (`http_client.py` lines 198-222) with no
`model_class` (the claims all use the no-target-shape path; the pydantic
hydration branch is not modelled).  `body` is the parsed JSON (`none` when
`response.json()` raises), `statusCode` the response's status. -/
def extractData (statusCode : Nat) (body : Option JValue) (text : String) :
    ExtractResult :=
  match body with
  | none => .rawText text
  | some data =>
    match data with
    | .obj fields =>
      match dictGet fields "success" with
      | some successVal =>
        if jFalsy successVal then
          let errorMsg := (dictGet fields "error").getD (.str "API request failed")
          .raised (GotrsError.ofArgs errorMsg (some statusCode) none none none)
        else
          .value ((dictGet fields "data").getD (.obj fields))
      | none => .value (.obj fields)
    | _ => .value data

/-! ## URL building (`http_client.py` lines 84-101) -/

/-- Python `str.lstrip("/")`: drop every leading slash. -/
def lstripSlashes (s : String) : String :=
  ⟨s.data.dropWhile (fun c => c = '/')⟩

/-- Python `str.rstrip("/")` (applied to `base_url` in `__init__`, line 38):
drop every trailing slash. -/
def rstripSlashes (s : String) : String :=
  ⟨(s.data.reverse.dropWhile (fun c => c = '/')).reverse⟩

/-- Split `scheme://rest` at the first `://`, returning the scheme characters
and the remainder; `none` when the separator does not occur.  (`acc` holds
the scheme characters read so far, reversed.) -/
def splitSchemeSep : (acc : List Char) → List Char → Option (List Char × List Char)
  | _, [] => none
  | acc, ':' :: '/' :: '/' :: rest => some (acc.reverse, rest)
  | acc, c :: rest => splitSchemeSep (c :: acc) rest

/-- Model of `urllib.parse.urljoin(base, url)` for the shapes `_build_url`
produces: `base` of the form `scheme://netloc/path` and `url` a reference.
An absolute reference (with a `:` in its first segment, i.e. its own scheme)
replaces the base; a root-relative reference keeps scheme and netloc;
otherwise the reference is merged onto the base path's directory.
(Dot-segment normalization is not modelled; no claim exercises `.` or `..`
segments.) -/
def urljoinModel (base url : String) : String :=
  if url = "" then base
  else
    match splitSchemeSep [] base.data with
    | some (scheme, rest) =>
      let netloc := rest.takeWhile (fun c => c ≠ '/')
      let basePath := rest.dropWhile (fun c => c ≠ '/')
      if (url.data.takeWhile (fun c => c ≠ '/')).any (fun c => c = ':') then
        url
      else
        match url.data with
        | '/' :: _ => (⟨scheme⟩ : String) ++ "://" ++ ⟨netloc⟩ ++ url
        | _ =>
          let dir := (basePath.reverse.dropWhile (fun c => c ≠ '/')).reverse
          let dir := if dir.isEmpty then ['/'] else dir
          (⟨scheme⟩ : String) ++ "://" ++ ⟨netloc⟩ ++ ⟨dir⟩ ++ url
    | none => url

/-- `HTTPClient._build_url` (`http_client.py` lines 84-101) with
`params=None` (the claim's case; the query-string branch only appends `?...`
to the joined URL), composed with the `__init__` normalization
`base_url.rstrip("/")` (line 38):
`urljoin(self.base_url + "/", path.lstrip("/"))`. -/
def buildUrl (baseUrlArg : String) (path : String) : String :=
  let baseUrl := rstripSlashes baseUrlArg
  urljoinModel (baseUrl ++ "/") (lstripSlashes path)

/-- The status code of a transport outcome, when it is a response. -/
def statusOf : TransportOutcome → Option Nat
  | .response r => some r.statusCode
  | _ => none

/-- An outcome the retry loop reacts to by sleeping and retrying (when
attempts remain): a timeout, a network error, or a response that is neither
successful nor a non-429 client error (429, 5xx, and every other non-2xx,
non-4xx status). -/
def retryableOutcome : TransportOutcome → Bool
  | .response r => !(isSuccessStatus r.statusCode) &&
      !(decide (400 ≤ r.statusCode ∧ r.statusCode < 500 ∧ r.statusCode ≠ 429))
  | .timeoutExc => true
  | .networkExc _ => true

/-! ## Lemmas about the retry loop -/

/-- One retryable attempt below the retry bound: the loop sleeps `2 ^ attempt`
and moves on to the remaining pending indices, for some updated
`last_exception`. -/
theorem runLoop_step_retryable (cfg : ClientConfig) (t : Nat → TransportOutcome)
    (attempt : Nat) (rest : List Nat) (le : Option ErrInfo) (acc : Nat)
    (delays : List Nat)
    (hlt : attempt < cfg.retries) (hr : retryableOutcome (t attempt) = true) :
    ∃ le', runLoop cfg t (attempt :: rest) le acc delays =
      runLoop cfg t rest le' (acc + 1) (delays ++ [2 ^ attempt]) := by
  cases ht : t attempt with
  | response r =>
    simp only [retryableOutcome, ht, Bool.and_eq_true, Bool.not_eq_true'] at hr
    obtain ⟨h1, h2⟩ := hr
    have h2' : ¬(400 ≤ r.statusCode ∧ r.statusCode < 500 ∧ r.statusCode ≠ 429) :=
      of_decide_eq_false h2
    refine ⟨le, ?_⟩
    simp only [runLoop, ht, h1, Bool.false_eq_true, if_false, h2', if_pos hlt]
  | timeoutExc =>
    refine ⟨some (TimeoutError.ofMessage
      ("Request timed out after " ++ toString cfg.timeout ++ "s")), ?_⟩
    simp only [runLoop, ht, if_pos hlt]
  | networkExc msg =>
    refine ⟨some (NetworkError.ofMessage ("Network error: " ++ msg)), ?_⟩
    simp only [runLoop, ht, if_pos hlt]

/-- A run whose next `d` pending outcomes (attempt indices
`attempt, …, attempt+d-1`, all below the retry bound) are all retryable
makes those `d` attempts and sleeps `2^attempt, …, 2^(attempt+d-1)`. -/
theorem runLoop_retryable_prefix (cfg : ClientConfig) (t : Nat → TransportOutcome) :
    ∀ (d attempt : Nat) (rest : List Nat) (le : Option ErrInfo) (acc : Nat)
      (delays : List Nat),
    attempt + d ≤ cfg.retries →
    (∀ i, attempt ≤ i → i < attempt + d → retryableOutcome (t i) = true) →
    ∃ le', runLoop cfg t (List.range' attempt d ++ rest) le acc delays =
      runLoop cfg t rest le' (acc + d)
        (delays ++ (List.range' attempt d).map (fun i => 2 ^ i)) := by
  intro d
  induction d with
  | zero =>
    intro attempt rest le acc delays _ _
    exact ⟨le, by simp⟩
  | succ d ih =>
    intro attempt rest le acc delays hle hall
    obtain ⟨le1, h1⟩ := runLoop_step_retryable cfg t attempt
      (List.range' (attempt + 1) d ++ rest) le acc delays
      (by omega) (hall attempt (Nat.le_refl _) (by omega))
    obtain ⟨le2, h2⟩ := ih (attempt + 1) rest le1 (acc + 1) (delays ++ [2 ^ attempt])
      (by omega) (fun i hi1 hi2 => hall i (by omega) (by omega))
    refine ⟨le2, ?_⟩
    have hsplit : List.range' attempt (d + 1) ++ rest =
        attempt :: (List.range' (attempt + 1) d ++ rest) := by
      rw [List.range'_succ, List.cons_append]
    have hc : acc + 1 + d = acc + (d + 1) := by omega
    have hd : (delays ++ [2 ^ attempt]) ++ (List.range' (attempt + 1) d).map (fun i => 2 ^ i) =
        delays ++ (List.range' attempt (d + 1)).map (fun i => 2 ^ i) := by
      rw [List.range'_succ]
      simp
    rw [hsplit, h1, h2, hc, hd]

/-- Splitting `range(retries + 1)` at index `j ≤ retries`: the pending list is
the `j` indices before `j`, then `j`, then the rest. -/
theorem range_retries_split (retries j : Nat) (hj : j ≤ retries) :
    List.range (retries + 1) =
      List.range' 0 j ++ (j :: List.range' (j + 1) (retries - j)) := by
  have h2 : retries + 1 = (retries - j + 1) + j := by omega
  rw [List.range_eq_range', h2, ← List.range'_append 0 j (retries - j + 1) 1]
  norm_num
  rw [List.range'_succ]

/-- A response that is neither successful nor a non-429 client error is a
retryable outcome. -/
theorem retryableOutcome_response (r : Response)
    (hns : isSuccessStatus r.statusCode = false)
    (hnc : ¬(400 ≤ r.statusCode ∧ r.statusCode < 500 ∧ r.statusCode ≠ 429)) :
    retryableOutcome (.response r) = true := by
  simp [retryableOutcome, hns, hnc]

/-- A constant retryable-response transport: the run makes all
`retries + 1` attempts, sleeps `2^0, …, 2^(retries-1)`, and raises the
classification of the response. -/
theorem runLoop_exhaust_response (cfg : ClientConfig) (r : Response)
    (hns : isSuccessStatus r.statusCode = false)
    (hnc : ¬(400 ≤ r.statusCode ∧ r.statusCode < 500 ∧ r.statusCode ≠ 429)) :
    makeRequestWithRetries cfg (fun _ => .response r) =
      ⟨cfg.retries + 1, (List.range cfg.retries).map (fun i => 2 ^ i),
        .failure (handleError r)⟩ := by
  rw [makeRequestWithRetries,
    range_retries_split cfg.retries cfg.retries (Nat.le_refl _)]
  obtain ⟨le', h⟩ := runLoop_retryable_prefix cfg (fun _ => .response r)
    cfg.retries 0 (cfg.retries :: List.range' (cfg.retries + 1) (cfg.retries - cfg.retries))
    none 0 [] (by omega)
    (fun i _ _ => retryableOutcome_response r hns hnc)
  rw [h]
  simp only [runLoop, hns, Bool.false_eq_true, if_false, hnc,
    if_neg (Nat.lt_irrefl cfg.retries)]
  simp [List.range_eq_range']

/-! ## Claim theorems -/

/-- C1: for every `k` below the configured max retries, a transport returning
a 500-status response on each of the first `k` attempts and a 200-status
response on attempt `k+1` makes the request succeed with that response,
with exactly `k+1` attempts made and exactly `k` backoff delays
`2^0, 2^1, …, 2^(k-1)` slept between consecutive attempts. -/
theorem retry_law_transient_500s (cfg : ClientConfig) (t : Nat → TransportOutcome)
    (k : Nat) (hk : k < cfg.retries)
    (h500 : ∀ i, i < k → statusOf (t i) = some 500)
    (h200 : statusOf (t k) = some 200) :
    ∃ r, t k = .response r ∧ r.statusCode = 200 ∧
      makeRequestWithRetries cfg t =
        ⟨k + 1, (List.range k).map (fun i => 2 ^ i), .success r⟩ := by
  obtain ⟨r, hr, hst⟩ : ∃ r, t k = .response r ∧ r.statusCode = 200 := by
    cases ht : t k with
    | response r =>
      refine ⟨r, rfl, ?_⟩
      rw [ht, statusOf] at h200
      exact Option.some.inj h200
    | timeoutExc => rw [ht] at h200; simp [statusOf] at h200
    | networkExc m => rw [ht] at h200; simp [statusOf] at h200
  refine ⟨r, hr, hst, ?_⟩
  have hretry : ∀ i, 0 ≤ i → i < 0 + k → retryableOutcome (t i) = true := by
    intro i _ hik
    have hsi := h500 i (by omega)
    cases ht : t i with
    | response ri =>
      rw [ht, statusOf] at hsi
      have h5 : ri.statusCode = 500 := Option.some.inj hsi
      exact retryableOutcome_response ri (by rw [h5]; decide) (by rw [h5]; decide)
    | timeoutExc => rfl
    | networkExc m => rfl
  rw [makeRequestWithRetries, range_retries_split cfg.retries k (by omega)]
  obtain ⟨le', h⟩ := runLoop_retryable_prefix cfg t k 0
    (k :: List.range' (k + 1) (cfg.retries - k)) none 0 [] (by omega) hretry
  rw [h]
  simp only [runLoop, hr, hst]
  norm_num [isSuccessStatus]
  simp [List.range_eq_range']

/-- C1 witness: retries 3, transport giving 500 on attempts 0 and 1 and 200
on attempt 2: success, 3 attempts, delays 1 and 2. -/
theorem retry_law_transient_500s_witness :
    ∃ r, (fun i => if i < 2 then TransportOutcome.response ⟨500, some [], "", none⟩
            else TransportOutcome.response ⟨200, some [], "", none⟩) 2 = .response r ∧
      r.statusCode = 200 ∧
      makeRequestWithRetries ⟨3, 30⟩
        (fun i => if i < 2 then TransportOutcome.response ⟨500, some [], "", none⟩
            else TransportOutcome.response ⟨200, some [], "", none⟩) =
        ⟨2 + 1, (List.range 2).map (fun i => 2 ^ i), .success r⟩ := by
  exact retry_law_transient_500s ⟨3, 30⟩
    (fun i => if i < 2 then TransportOutcome.response ⟨500, some [], "", none⟩
        else TransportOutcome.response ⟨200, some [], "", none⟩) 2 (by decide)
    (fun i hi => by interval_cases i <;> rfl) rfl

/-- C3: a response with status in [400, 500) other than 429, obtained on any
attempt reachable by retryable outcomes (including the first), makes the loop
raise the classified taxonomy error immediately: no backoff delay is slept
after it and no further attempt is made. -/
theorem no_retry_client_error (cfg : ClientConfig) (t : Nat → TransportOutcome)
    (j : Nat) (r : Response) (hj : j ≤ cfg.retries)
    (hpre : ∀ i, i < j → retryableOutcome (t i) = true)
    (hr : t j = .response r)
    (h1 : 400 ≤ r.statusCode) (h2 : r.statusCode < 500) (h3 : r.statusCode ≠ 429) :
    makeRequestWithRetries cfg t =
      ⟨j + 1, (List.range j).map (fun i => 2 ^ i), .failure (handleError r)⟩ := by
  rw [makeRequestWithRetries, range_retries_split cfg.retries j hj]
  obtain ⟨le', h⟩ := runLoop_retryable_prefix cfg t j 0
    (j :: List.range' (j + 1) (cfg.retries - j)) none 0 []
    (by omega) (fun i _ hik => hpre i (by omega))
  rw [h]
  have hns : isSuccessStatus r.statusCode = false := by
    simp only [isSuccessStatus, decide_eq_false_iff_not]
    omega
  simp only [runLoop, hr, hns, Bool.false_eq_true, if_false,
    if_pos (⟨h1, h2, h3⟩ : 400 ≤ r.statusCode ∧ r.statusCode < 500 ∧ r.statusCode ≠ 429)]
  simp [List.range_eq_range']

/-- C3 witness: a 400 response on the very first attempt with retries 3:
raised immediately, one attempt, no delays. -/
theorem no_retry_client_error_witness :
    makeRequestWithRetries ⟨3, 30⟩ (fun _ => .response ⟨400, some [], "", none⟩) =
      ⟨0 + 1, (List.range 0).map (fun i => 2 ^ i),
        .failure (handleError ⟨400, some [], "", none⟩)⟩ := by
  exact no_retry_client_error ⟨3, 30⟩ (fun _ => .response ⟨400, some [], "", none⟩)
    0 ⟨400, some [], "", none⟩ (by omega)
    (fun i hi => absurd hi (Nat.not_lt_zero i)) rfl (by decide) (by decide) (by decide)

/-- C7: a 429 response surfaced after retries are exhausted raises a
`RateLimitError` whose `retry_after` is the integer parse of the
`Retry-After` header (absent header or unparseable value → absent, never a
crash): in particular header value `"30"` gives 30 and `"abc"` gives
absent. -/
theorem rate_limit_retry_after_parsing (cfg : ClientConfig)
    (bodyFields : Option (List (String × JValue))) (text : String)
    (hdr : Option String) :
    (makeRequestWithRetries cfg
        (fun _ => .response ⟨429, bodyFields, text, hdr⟩)).result =
      .failure (handleError ⟨429, bodyFields, text, hdr⟩) ∧
    (handleError ⟨429, bodyFields, text, hdr⟩).kind = .rateLimit ∧
    (handleError ⟨429, bodyFields, text, hdr⟩).retryAfter =
      hdr.bind pythonIntOfString ∧
    pythonIntOfString "30" = some 30 ∧
    pythonIntOfString "abc" = none := by
  refine ⟨?_, ?_, ?_, by decide, by decide⟩
  · rw [runLoop_exhaust_response cfg ⟨429, bodyFields, text, hdr⟩ rfl
      (fun h => h.2.2 rfl)]
  · simp [handleError, RateLimitError.ofArgs]
  · cases hdr <;> simp [handleError, RateLimitError.ofArgs]

/-- C6 (evaluation at the failing input): a 503 response whose body has no
`code` field raises a `ServerError` that carries the response's status, but
its machine code is the empty string, not `SERVER_ERROR`:
`_handle_error` passes `code=error_data.get("code", "")`, which defeats
`ServerError.__init__`'s `kwargs.setdefault("code", "SERVER_ERROR")`. -/
theorem server_error_code_bug_eval :
    (handleError ⟨503, some [("message", .str "oops")], "", none⟩).kind = .server ∧
    (handleError ⟨503, some [("message", .str "oops")], "", none⟩).statusCode = some 503 ∧
    (handleError ⟨503, some [("message", .str "oops")], "", none⟩).code = some (.str "") ∧
    ("" : String) ≠ "SERVER_ERROR" := by
  refine ⟨rfl, ?_, ?_, by decide⟩ <;> rfl

/-- C2 counterexample: on body `{success: false, message: "boom"}` the raised
error's message is the fallback `"API request failed"`, not the body's
`message` field `"boom"`: `_extract_data` consults only the `error` field. -/
theorem envelope_error_message_counterexample :
    (match extractData 200
        (some (.obj [("success", .bool false), ("message", .str "boom")])) "" with
      | .raised e => e.message
      | _ => .null) = .str "API request failed" ∧
    ("API request failed" : String) ≠ "boom" := by
  exact ⟨rfl, by decide⟩

/-- C2 amended: for a successful response whose parsed body is a mapping
containing `success`: if `success` is falsy, the operation raises a
classified error whose message is the body's `error` field (falling back to
`"API request failed"` when `error` is absent; the `message` field is not
consulted), carrying the original HTTP status, and never returns the body's
`data`; if `success` is truthy, it returns the `data` field, falling back to
the whole body when `data` is absent. -/
theorem envelope_unwrap_amended (status : Nat) (text : String)
    (fields : List (String × JValue)) (sv : JValue)
    (h : dictGet fields "success" = some sv) :
    (jFalsy sv = true →
      extractData status (some (.obj fields)) text =
        .raised (GotrsError.ofArgs
          ((dictGet fields "error").getD (.str "API request failed"))
          (some status) none none none)) ∧
    (jFalsy sv = false →
      extractData status (some (.obj fields)) text =
        .value ((dictGet fields "data").getD (.obj fields))) := by
  constructor <;> intro hf <;> simp [extractData, h, hf]

/-- C2 amended, witness: body `{success: false, error: "boom"}` raises with
message `"boom"` and status 200. -/
theorem envelope_unwrap_amended_witness :
    extractData 200
        (some (.obj [("success", .bool false), ("error", .str "boom")])) "" =
      .raised (GotrsError.ofArgs (.str "boom") (some 200) none none none) := by
  exact (envelope_unwrap_amended 200 ""
    [("success", .bool false), ("error", .str "boom")] (.bool false) rfl).1 rfl

/-- C4: for a time-bounded authenticator (JWT or OAuth2 with a stored
expiry), `is_expired()` at current time `now` is true iff
`now ≥ expiry − 60`, and the boundary `now = expiry − 60` itself counts as
expired (the 60-second buffer is inclusive). -/
theorem is_expired_inclusive_buffer (e now : Int) (tok : String)
    (rt : Option String) (tt : String) :
    (JWTState.isExpired ⟨tok, rt, some e⟩ now = true ↔ e - 60 ≤ now) ∧
    (OAuth2State.isExpired ⟨tok, rt, tt, some e⟩ now = true ↔ e - 60 ≤ now) ∧
    JWTState.isExpired ⟨tok, rt, some e⟩ (e - 60) = true ∧
    OAuth2State.isExpired ⟨tok, rt, tt, some e⟩ (e - 60) = true := by
  refine ⟨?_, ?_, ?_, ?_⟩
  · simp only [JWTState.isExpired, isExpiredAt, decide_eq_true_eq]
    omega
  · simp only [OAuth2State.isExpired, isExpiredAt, decide_eq_true_eq]
    omega
  · simp only [JWTState.isExpired, isExpiredAt, decide_eq_true_eq]
    omega
  · simp only [OAuth2State.isExpired, isExpiredAt, decide_eq_true_eq]
    omega

/-- C8: every authenticator whose state holds no expiry timestamp (`NoAuth`,
`APIKeyAuth`, and JWT/OAuth2 constructed without `expires_at`) reports
`is_expired()` false for every current-clock value. -/
theorem no_expiry_never_expired (now : Int) (tok : String)
    (rt : Option String) (tt : String) :
    noAuthIsExpired = false ∧ apiKeyIsExpired = false ∧
    JWTState.isExpired ⟨tok, rt, none⟩ now = false ∧
    OAuth2State.isExpired ⟨tok, rt, tt, none⟩ now = false :=
  ⟨rfl, rfl, rfl, rfl⟩

/-- C9: URL building is insensitive to a leading slash on the path: against
base `https://x.test`, both `/a/b` and `a/b` build the identical string
`https://x.test/a/b`. -/
theorem build_url_leading_slash_insensitive :
    buildUrl "https://x.test" "/a/b" = "https://x.test/a/b" ∧
    buildUrl "https://x.test" "a/b" = "https://x.test/a/b" := by
  exact ⟨rfl, rfl⟩

/-- C10: when `refresh()` succeeds (here: a non-empty refresh token is
configured, so the truthiness guard passes) with a refresh-procedure result
containing no `expires_at` key, the stored expiry is left unchanged — only
the access token (and the refresh token, when supplied, falling back to the
old one) is updated — so an authenticator expired before such a refresh
still reports `is_expired()` true immediately afterwards.  Stated for both
`JWTAuth` and `OAuth2Auth`. -/
theorem refresh_without_expiry_preserves_expiry
    (f : String → RefreshResult) (now : Int)
    (sj : JWTState) (so : OAuth2State) (rtj rto : String)
    (hrtj : rtj ≠ "") (hrto : rto ≠ "")
    (hj : sj.refreshToken = some rtj) (hfj : (f rtj).expiresAt = none)
    (hej : sj.isExpired now = true)
    (ho : so.refreshToken = some rto) (hfo : (f rto).expiresAt = none)
    (heo : so.isExpired now = true) :
    jwtRefresh (some f) now sj =
      .ok ({ token := (f rtj).accessToken,
             refreshToken := ((f rtj).refreshToken).or sj.refreshToken,
             expiresAt := sj.expiresAt }, 1) ∧
    JWTState.isExpired ⟨(f rtj).accessToken,
      ((f rtj).refreshToken).or sj.refreshToken, sj.expiresAt⟩ now = true ∧
    oauth2Refresh (some f) now so =
      .ok ({ accessToken := (f rto).accessToken,
             refreshToken := ((f rto).refreshToken).or so.refreshToken,
             tokenType := so.tokenType,
             expiresAt := so.expiresAt }, 1) ∧
    OAuth2State.isExpired ⟨(f rto).accessToken,
      ((f rto).refreshToken).or so.refreshToken, so.tokenType, so.expiresAt⟩ now = true := by
  refine ⟨?_, hej, ?_, heo⟩
  · simp only [jwtRefresh, hj, hej]
    rw [if_neg hrtj, if_neg (by simp [hej])]
    rw [hfj]
    cases hor : (f rtj).refreshToken <;> simp [hor, Option.or, hj]
  · simp only [oauth2Refresh, ho, heo]
    rw [if_neg hrto, if_neg (by simp [heo])]
    rw [hfo]
    cases hor : (f rto).refreshToken <;> simp [hor, Option.or, ho]

/-- C10 witness: concrete JWT and OAuth2 states expired at time 0, refresh
result without `expires_at`: tokens updated, expiry unchanged, still
expired. -/
theorem refresh_without_expiry_preserves_expiry_witness :
    jwtRefresh (some (fun _ => ⟨"t2", none, none⟩)) 0 ⟨"t1", some "rt", some 0⟩ =
      .ok (⟨"t2", some "rt", some 0⟩, 1) ∧
    JWTState.isExpired ⟨"t2", some "rt", some 0⟩ 0 = true ∧
    oauth2Refresh (some (fun _ => ⟨"t2", none, none⟩)) 0
        ⟨"t1", some "rt", "Bearer", some 0⟩ =
      .ok (⟨"t2", some "rt", "Bearer", some 0⟩, 1) ∧
    OAuth2State.isExpired ⟨"t2", some "rt", "Bearer", some 0⟩ 0 = true := by
  exact refresh_without_expiry_preserves_expiry (fun _ => ⟨"t2", none, none⟩) 0
    ⟨"t1", some "rt", some 0⟩ ⟨"t1", some "rt", "Bearer", some 0⟩ "rt" "rt"
    (by decide) (by decide) rfl rfl (by decide) rfl rfl (by decide)

/-- Serialized callers of `JWTAuth.refresh` against a non-expired
authenticator all hit the double check after the lock and return without
refreshing (misconfigured callers raise without touching state): state
unchanged, zero invocations. -/
theorem jwtConcurrentRefresh_of_not_expired
    (fo : Option (String → RefreshResult)) (now : Int) :
    ∀ (n : Nat) (s : JWTState), s.isExpired now = false →
      jwtConcurrentRefresh fo now n s = (s, 0) := by
  intro n
  induction n with
  | zero => intro s _; rfl
  | succ n ih =>
    intro s h
    cases fo with
    | none => simp [jwtConcurrentRefresh, jwtRefresh, ih s h]
    | some f =>
      cases hrt : s.refreshToken with
      | none => simp [jwtConcurrentRefresh, jwtRefresh, hrt, ih s h]
      | some rt =>
        by_cases hemp : rt = ""
        · simp [jwtConcurrentRefresh, jwtRefresh, hrt, hemp, ih s h]
        · simp [jwtConcurrentRefresh, jwtRefresh, hrt, hemp, h, ih s h]

/-- Serialized callers of `OAuth2Auth.refresh` against a non-expired
authenticator: state unchanged, zero invocations. -/
theorem oauth2ConcurrentRefresh_of_not_expired
    (fo : Option (String → RefreshResult)) (now : Int) :
    ∀ (n : Nat) (s : OAuth2State), s.isExpired now = false →
      oauth2ConcurrentRefresh fo now n s = (s, 0) := by
  intro n
  induction n with
  | zero => intro s _; rfl
  | succ n ih =>
    intro s h
    cases fo with
    | none => simp [oauth2ConcurrentRefresh, oauth2Refresh, ih s h]
    | some f =>
      cases hrt : s.refreshToken with
      | none => simp [oauth2ConcurrentRefresh, oauth2Refresh, hrt, ih s h]
      | some rt =>
        by_cases hemp : rt = ""
        · simp [oauth2ConcurrentRefresh, oauth2Refresh, hrt, hemp, ih s h]
        · simp [oauth2ConcurrentRefresh, oauth2Refresh, hrt, hemp, h, ih s h]

/-- C5 counterexample: two concurrent callers of `refresh()` against one
expired `JWTAuth` whose refresh procedure returns no `expires_at` invoke the
procedure twice, not once: the double check re-reads `is_expired()`, which
stays true because the expiry was not advanced. -/
theorem concurrent_refresh_counterexample :
    (jwtConcurrentRefresh (some (fun _ => ⟨"t2", none, none⟩)) 0 2
        ⟨"t1", some "rt", some 0⟩).2 = 2 ∧ (2 : Nat) ≠ 1 :=
  ⟨rfl, by decide⟩

/-- C5 amended: N ≥ 1 concurrent callers of `refresh()` against one expired
authenticator (JWT or OAuth2) holding a non-empty refresh token (an empty
one is falsy and raises before the lock), where the refresh procedure's
result carries an `expires_at` later than now + 60s (so the refreshed
credential leaves the expiry buffer), result in exactly one invocation of
the refresh procedure,
and afterwards every caller observes the same refreshed state, whose access
token is the one the procedure returned.  (Without such an `expires_at`, the
double check stays true and each serialized caller refreshes again — see the
counterexample.) -/
theorem concurrent_refresh_amended
    (f : String → RefreshResult) (now : Int) (n : Nat)
    (sj : JWTState) (so : OAuth2State) (rtj rto : String) (ej eo : Int)
    (hn : 1 ≤ n) (hrtj : rtj ≠ "") (hrto : rto ≠ "")
    (hj : sj.refreshToken = some rtj) (hej : sj.isExpired now = true)
    (hfj : (f rtj).expiresAt = some ej) (hbj : ¬ ej ≤ now + 60)
    (ho : so.refreshToken = some rto) (heo : so.isExpired now = true)
    (hfo : (f rto).expiresAt = some eo) (hbo : ¬ eo ≤ now + 60) :
    ∃ sj' so',
      jwtConcurrentRefresh (some f) now n sj = (sj', 1) ∧
      sj'.token = (f rtj).accessToken ∧
      oauth2ConcurrentRefresh (some f) now n so = (so', 1) ∧
      so'.accessToken = (f rto).accessToken := by
  obtain ⟨m, rfl⟩ : ∃ m, n = m + 1 := ⟨n - 1, by omega⟩
  have hstepj : jwtRefresh (some f) now sj =
      .ok (⟨(f rtj).accessToken, ((f rtj).refreshToken).or sj.refreshToken,
        some ej⟩, 1) := by
    simp only [jwtRefresh, hj, hej]
    rw [if_neg hrtj, if_neg (by simp [hej])]
    rw [hfj]
    cases hor : (f rtj).refreshToken <;> simp [hor, Option.or, hj]
  have hstepo : oauth2Refresh (some f) now so =
      .ok (⟨(f rto).accessToken, ((f rto).refreshToken).or so.refreshToken,
        so.tokenType, some eo⟩, 1) := by
    simp only [oauth2Refresh, ho, heo]
    rw [if_neg hrto, if_neg (by simp [heo])]
    rw [hfo]
    cases hor : (f rto).refreshToken <;> simp [hor, Option.or, ho]
  have hnej : JWTState.isExpired ⟨(f rtj).accessToken,
      ((f rtj).refreshToken).or sj.refreshToken, some ej⟩ now = false :=
    decide_eq_false hbj
  have hneo : OAuth2State.isExpired ⟨(f rto).accessToken,
      ((f rto).refreshToken).or so.refreshToken, so.tokenType, some eo⟩ now = false :=
    decide_eq_false hbo
  refine ⟨⟨(f rtj).accessToken, ((f rtj).refreshToken).or sj.refreshToken, some ej⟩,
    ⟨(f rto).accessToken, ((f rto).refreshToken).or so.refreshToken, so.tokenType, some eo⟩,
    ?_, rfl, ?_, rfl⟩
  · simp only [jwtConcurrentRefresh, hstepj,
      jwtConcurrentRefresh_of_not_expired (some f) now m _ hnej]
  · simp only [oauth2ConcurrentRefresh, hstepo,
      oauth2ConcurrentRefresh_of_not_expired (some f) now m _ hneo]

/-- C5 amended, witness: three concurrent callers at time 0 against expired
JWT and OAuth2 states, refresh result expiring at 1000: one invocation each,
final token `"t2"`. -/
theorem concurrent_refresh_amended_witness :
    ∃ sj' so',
      jwtConcurrentRefresh (some (fun _ => ⟨"t2", some "rt2", some 1000⟩)) 0 3
          ⟨"t1", some "rt", some 0⟩ = (sj', 1) ∧
      sj'.token = "t2" ∧
      oauth2ConcurrentRefresh (some (fun _ => ⟨"t2", some "rt2", some 1000⟩)) 0 3
          ⟨"t1", some "rt", "Bearer", some 0⟩ = (so', 1) ∧
      so'.accessToken = "t2" := by
  exact concurrent_refresh_amended (fun _ => ⟨"t2", some "rt2", some 1000⟩) 0 3
    ⟨"t1", some "rt", some 0⟩ ⟨"t1", some "rt", "Bearer", some 0⟩ "rt" "rt" 1000 1000
    (by omega) (by decide) (by decide)
    rfl (by decide) rfl (by decide) rfl (by decide) rfl (by decide)

end GotrsSdk
